import Mathlib

/-!
Shallow embedding of `src/SHUBv3_MLC/MEMS/Target/custom_motion_sensors.c`
(ST BSP motion-sensor dispatch layer for the LSM6DSOX on a custom board).

Modelling conventions:
* `uint32_t` parameters (Instance, Functions/Function masks) become `Nat`;
  all values involved stay far below `2 ^ 32`, so no wraparound arises and
  plain `Nat` bit operations (`&&&`, `|||`, `<<<`) are faithful.
* `int32_t` BSP/driver status codes become `Int`.
* The external LSM6DSOX driver and the I2C bus are collaborators reached
  only through function pointers; their behaviour is a parameter
  (`DriverEnv`) giving the status each driver entry point returns.
* The static tables `MotionCtx`, `MotionFuncDrv`, `MotionDrv`,
  `MotionCompObj` (one instance, `CUSTOM_MOTION_INSTANCES_NBR = 1`) become
  the record `BSPState`; static storage starts zero-initialised
  (`initialState`): context mask 0, all driver pointers NULL.
* Each API translation returns the BSP status together with the list of
  driver entry points it invoked (`DrvCall` trace); operations that can
  dereference a NULL driver pointer or read `FunctionIndex` out of bounds
  return `Option`, with `none` marking that undefined behaviour.
-/

namespace CustomMotion

/-- BSP status codes. Modelled from the spec: the numeric values live in
`stm32wlxx_nucleo_errno.h`, which is not under `src/`; the spec fixes the
five-value taxonomy NONE / WRONG_PARAM / NO_INIT / UNKNOWN_COMPONENT /
COMPONENT_FAILURE and only distinctness matters, so the standard ST values
are used. -/
def BSP_ERROR_NONE : Int := 0

def BSP_ERROR_NO_INIT : Int := -1

def BSP_ERROR_WRONG_PARAM : Int := -2

def BSP_ERROR_COMPONENT_FAILURE : Int := -5

def BSP_ERROR_UNKNOWN_COMPONENT : Int := -7

/-- LSM6DSOX driver success status (external driver header). -/
def LSM6DSOX_OK : Int := 0

/-- Expected identity-register value of the LSM6DSOX (external driver
header, `LSM6DSOX_ID = 0x6C`). -/
def LSM6DSOX_ID : Nat := 0x6C

/-- Motion-function bit flags. Modelled from the spec: declared in the BSP
motion-sensor header, not under `src/`; the values are pinned by the source
itself — `FunctionIndex` has size `max function + 1 = 5` with entries
`{0,0,1,1,2}`, and the probe stores `Gyro | Acc << 1 | Magneto << 2`, so
GYRO = 1, ACCELERO = 2, MAGNETO = 4. -/
def MOTION_GYRO : Nat := 1

def MOTION_ACCELERO : Nat := 2

def MOTION_MAGNETO : Nat := 4

/-- Modelled from the spec: `custom_motion_sensors.h` is not under `src/`;
the spec says the layer probes "the one supported sensor instance" and the
only configured component is `CUSTOM_LSM6DSOX_0`, so there is exactly one
instance slot. -/
def CUSTOM_MOTION_INSTANCES_NBR : Nat := 1

def CUSTOM_LSM6DSOX_0 : Nat := 0

/-- Number of per-function driver slots (gyro / accelero / magneto). -/
def CUSTOM_MOTION_FUNCTIONS_NBR : Nat := 3

/-- `static uint32_t FunctionIndex[5] = {0, 0, 1, 1, 2};` — jump table from
a function flag to the dense per-function slot index. -/
def FunctionIndex : List Nat := [0, 0, 1, 1, 2]

/-- Reading `FunctionIndex[Function]`: `none` when the read is out of the
5-element bounds (undefined behaviour in the C source). -/
def FunctionIndexRead (f : Nat) : Option Nat :=
  FunctionIndex.get? f

/-- `LSM6DSOX_Capabilities_t` — the fields consumed here (`uint8_t` flags,
modelled as `Nat`; the driver sets them to 0 or 1). -/
structure Capabilities where
  Acc : Nat
  Gyro : Nat
  Magneto : Nat
deriving DecidableEq

/-- Which concrete per-function driver a `MotionFuncDrv` slot holds: the
probe binds `LSM6DSOX_GYRO_Driver` or `LSM6DSOX_ACC_Driver`. -/
inductive FuncDrvId where
  | gyroDrv
  | accDrv
deriving DecidableEq

/-- One invocation of an underlying driver entry point, recorded in the
order the C code performs them. -/
inductive DrvCall where
  | regBus
  | lsmReadID
  | lsmGetCapabilities
  | commonInit
  | commonDeInit
  | commonGetCapabilities
  | commonReadID
  | funcEnable (d : FuncDrvId)
  | funcDisable (d : FuncDrvId)
  | funcGetAxes (d : FuncDrvId)
  | funcGetAxesRaw (d : FuncDrvId)
  | funcGetSensitivity (d : FuncDrvId)
  | funcGetOutputDataRate (d : FuncDrvId)
  | funcSetOutputDataRate (d : FuncDrvId)
  | funcGetFullScale (d : FuncDrvId)
  | funcSetFullScale (d : FuncDrvId)
deriving DecidableEq

/-- Behaviour of the external LSM6DSOX driver and bus: the status each
entry point returns, the identity byte the device reports, and the
capability record. `commonInitRet n` is the status of the (n+1)-th call to
the common driver's Init within a probe (so a mock can fail a later Init). -/
structure DriverEnv where
  regBusRet : Int
  readIDRet : Int
  readIDVal : Nat
  cap : Capabilities
  commonGetCapRet : Int
  commonInitRet : Nat → Int
  commonDeInitRet : Int
  commonReadIDRet : Int
  funcEnableRet : FuncDrvId → Int
  funcDisableRet : FuncDrvId → Int
  funcGetAxesRet : FuncDrvId → Int
  funcGetAxesRawRet : FuncDrvId → Int
  funcGetSensitivityRet : FuncDrvId → Int
  funcGetOdrRet : FuncDrvId → Int
  funcSetOdrRet : FuncDrvId → Int
  funcGetFullScaleRet : FuncDrvId → Int
  funcSetFullScaleRet : FuncDrvId → Int

/-- `MotionFuncDrv[CUSTOM_LSM6DSOX_0]` — the 3 per-function driver-pointer
slots (`CUSTOM_MOTION_FUNCTIONS_NBR = 3`); `none` is a NULL pointer. -/
structure FuncTable where
  slot0 : Option FuncDrvId
  slot1 : Option FuncDrvId
  slot2 : Option FuncDrvId
deriving DecidableEq

/-- Reading `MotionFuncDrv[0][idx]`. `FunctionIndex` only ever yields
indices 0..2, so the default branch is unreachable. -/
def FuncTable.read (t : FuncTable) (idx : Nat) : Option FuncDrvId :=
  match idx with
  | 0 => t.slot0
  | 1 => t.slot1
  | 2 => t.slot2
  | _ => none

/-- Writing `MotionFuncDrv[0][idx] = v`. -/
def FuncTable.write (t : FuncTable) (idx : Nat) (v : Option FuncDrvId) : FuncTable :=
  match idx with
  | 0 => { t with slot0 := v }
  | 1 => { t with slot1 := v }
  | 2 => { t with slot2 := v }
  | _ => t

/-- The static state of the dispatch layer for the single instance:
`MotionCtx[0].Functions`, `MotionFuncDrv[0]`, and whether `MotionDrv[0]` /
`MotionCompObj[0]` have been set (NULL when `false`). -/
structure BSPState where
  ctxFunctions : Nat
  funcDrv : FuncTable
  drvBound : Bool
  objBound : Bool
deriving DecidableEq

/-- Zero-initialised static storage before any probe. -/
def initialState : BSPState :=
  { ctxFunctions := 0
    funcDrv := { slot0 := none, slot1 := none, slot2 := none }
    drvBound := false
    objBound := false }

/-- The mask the probe stores into `MotionCtx[CUSTOM_LSM6DSOX_0].Functions`:
`((uint32_t)cap.Gyro) | ((uint32_t)cap.Acc << 1) | ((uint32_t)cap.Magneto << 2)`. -/
def ctxMaskOf (cap : Capabilities) : Nat :=
  cap.Gyro ||| (cap.Acc <<< 1) ||| (cap.Magneto <<< 2)

/-- `component_functions` as computed inside `CUSTOM_MOTION_SENSOR_Init`
from the capability record (bits OR-ed in when the flag equals 1). -/
def componentFunctionsOf (cap : Capabilities) : Nat :=
  ((if cap.Acc = 1 then MOTION_ACCELERO else 0) |||
   (if cap.Gyro = 1 then MOTION_GYRO else 0)) |||
  (if cap.Magneto = 1 then MOTION_MAGNETO else 0)

/-- `CUSTOM_MOTION_SENSOR_Enable (lines 190-218)`: instance check, then the
mask-subset check `(MotionCtx[Instance].Functions & Function) == Function`,
then dispatch through `MotionFuncDrv[Instance][FunctionIndex[Function]]`.
`none` = undefined behaviour (out-of-bounds `FunctionIndex` read or NULL
slot dereference). -/
def CUSTOM_MOTION_SENSOR_Enable (env : DriverEnv) (s : BSPState)
    (Instance Function : Nat) : Option (Int × List DrvCall) :=
  if Instance ≥ CUSTOM_MOTION_INSTANCES_NBR then
    some (BSP_ERROR_WRONG_PARAM, [])
  else if s.ctxFunctions &&& Function = Function then
    match FunctionIndexRead Function with
    | none => none
    | some idx =>
      match s.funcDrv.read idx with
      | none => none
      | some d =>
        if env.funcEnableRet d ≠ BSP_ERROR_NONE then
          some (BSP_ERROR_COMPONENT_FAILURE, [DrvCall.funcEnable d])
        else
          some (BSP_ERROR_NONE, [DrvCall.funcEnable d])
  else
    some (BSP_ERROR_WRONG_PARAM, [])

/-- `CUSTOM_MOTION_SENSOR_Disable (lines 229-257)`. -/
def CUSTOM_MOTION_SENSOR_Disable (env : DriverEnv) (s : BSPState)
    (Instance Function : Nat) : Option (Int × List DrvCall) :=
  if Instance ≥ CUSTOM_MOTION_INSTANCES_NBR then
    some (BSP_ERROR_WRONG_PARAM, [])
  else if s.ctxFunctions &&& Function = Function then
    match FunctionIndexRead Function with
    | none => none
    | some idx =>
      match s.funcDrv.read idx with
      | none => none
      | some d =>
        if env.funcDisableRet d ≠ BSP_ERROR_NONE then
          some (BSP_ERROR_COMPONENT_FAILURE, [DrvCall.funcDisable d])
        else
          some (BSP_ERROR_NONE, [DrvCall.funcDisable d])
  else
    some (BSP_ERROR_WRONG_PARAM, [])

/-- `CUSTOM_MOTION_SENSOR_GetAxes (lines 269-297)` (the `Axes` out
parameter carries no status and is not modelled). -/
def CUSTOM_MOTION_SENSOR_GetAxes (env : DriverEnv) (s : BSPState)
    (Instance Function : Nat) : Option (Int × List DrvCall) :=
  if Instance ≥ CUSTOM_MOTION_INSTANCES_NBR then
    some (BSP_ERROR_WRONG_PARAM, [])
  else if s.ctxFunctions &&& Function = Function then
    match FunctionIndexRead Function with
    | none => none
    | some idx =>
      match s.funcDrv.read idx with
      | none => none
      | some d =>
        if env.funcGetAxesRet d ≠ BSP_ERROR_NONE then
          some (BSP_ERROR_COMPONENT_FAILURE, [DrvCall.funcGetAxes d])
        else
          some (BSP_ERROR_NONE, [DrvCall.funcGetAxes d])
  else
    some (BSP_ERROR_WRONG_PARAM, [])

/-- `CUSTOM_MOTION_SENSOR_GetAxesRaw (lines 309-337)`. -/
def CUSTOM_MOTION_SENSOR_GetAxesRaw (env : DriverEnv) (s : BSPState)
    (Instance Function : Nat) : Option (Int × List DrvCall) :=
  if Instance ≥ CUSTOM_MOTION_INSTANCES_NBR then
    some (BSP_ERROR_WRONG_PARAM, [])
  else if s.ctxFunctions &&& Function = Function then
    match FunctionIndexRead Function with
    | none => none
    | some idx =>
      match s.funcDrv.read idx with
      | none => none
      | some d =>
        if env.funcGetAxesRawRet d ≠ BSP_ERROR_NONE then
          some (BSP_ERROR_COMPONENT_FAILURE, [DrvCall.funcGetAxesRaw d])
        else
          some (BSP_ERROR_NONE, [DrvCall.funcGetAxesRaw d])
  else
    some (BSP_ERROR_WRONG_PARAM, [])

/-- `CUSTOM_MOTION_SENSOR_GetSensitivity (lines 349-377)`. -/
def CUSTOM_MOTION_SENSOR_GetSensitivity (env : DriverEnv) (s : BSPState)
    (Instance Function : Nat) : Option (Int × List DrvCall) :=
  if Instance ≥ CUSTOM_MOTION_INSTANCES_NBR then
    some (BSP_ERROR_WRONG_PARAM, [])
  else if s.ctxFunctions &&& Function = Function then
    match FunctionIndexRead Function with
    | none => none
    | some idx =>
      match s.funcDrv.read idx with
      | none => none
      | some d =>
        if env.funcGetSensitivityRet d ≠ BSP_ERROR_NONE then
          some (BSP_ERROR_COMPONENT_FAILURE, [DrvCall.funcGetSensitivity d])
        else
          some (BSP_ERROR_NONE, [DrvCall.funcGetSensitivity d])
  else
    some (BSP_ERROR_WRONG_PARAM, [])

/-- `CUSTOM_MOTION_SENSOR_GetOutputDataRate (lines 389-417)`. -/
def CUSTOM_MOTION_SENSOR_GetOutputDataRate (env : DriverEnv) (s : BSPState)
    (Instance Function : Nat) : Option (Int × List DrvCall) :=
  if Instance ≥ CUSTOM_MOTION_INSTANCES_NBR then
    some (BSP_ERROR_WRONG_PARAM, [])
  else if s.ctxFunctions &&& Function = Function then
    match FunctionIndexRead Function with
    | none => none
    | some idx =>
      match s.funcDrv.read idx with
      | none => none
      | some d =>
        if env.funcGetOdrRet d ≠ BSP_ERROR_NONE then
          some (BSP_ERROR_COMPONENT_FAILURE, [DrvCall.funcGetOutputDataRate d])
        else
          some (BSP_ERROR_NONE, [DrvCall.funcGetOutputDataRate d])
  else
    some (BSP_ERROR_WRONG_PARAM, [])

/-- `CUSTOM_MOTION_SENSOR_GetFullScale (lines 429-457)`. -/
def CUSTOM_MOTION_SENSOR_GetFullScale (env : DriverEnv) (s : BSPState)
    (Instance Function : Nat) : Option (Int × List DrvCall) :=
  if Instance ≥ CUSTOM_MOTION_INSTANCES_NBR then
    some (BSP_ERROR_WRONG_PARAM, [])
  else if s.ctxFunctions &&& Function = Function then
    match FunctionIndexRead Function with
    | none => none
    | some idx =>
      match s.funcDrv.read idx with
      | none => none
      | some d =>
        if env.funcGetFullScaleRet d ≠ BSP_ERROR_NONE then
          some (BSP_ERROR_COMPONENT_FAILURE, [DrvCall.funcGetFullScale d])
        else
          some (BSP_ERROR_NONE, [DrvCall.funcGetFullScale d])
  else
    some (BSP_ERROR_WRONG_PARAM, [])

/-- `CUSTOM_MOTION_SENSOR_SetOutputDataRate (lines 469-497)`; `Odr` is the
`float` value forwarded to the driver (the mock's status does not depend
on it). -/
def CUSTOM_MOTION_SENSOR_SetOutputDataRate (env : DriverEnv) (s : BSPState)
    (Instance Function : Nat) (Odr : Float) : Option (Int × List DrvCall) :=
  if Instance ≥ CUSTOM_MOTION_INSTANCES_NBR then
    some (BSP_ERROR_WRONG_PARAM, [])
  else if s.ctxFunctions &&& Function = Function then
    match FunctionIndexRead Function with
    | none => none
    | some idx =>
      match s.funcDrv.read idx with
      | none => none
      | some d =>
        if env.funcSetOdrRet d ≠ BSP_ERROR_NONE then
          some (BSP_ERROR_COMPONENT_FAILURE, [DrvCall.funcSetOutputDataRate d])
        else
          some (BSP_ERROR_NONE, [DrvCall.funcSetOutputDataRate d])
  else
    some (BSP_ERROR_WRONG_PARAM, [])

/-- `CUSTOM_MOTION_SENSOR_SetFullScale (lines 509-537)`; `Fullscale` is the
`int32_t` value forwarded to the driver. -/
def CUSTOM_MOTION_SENSOR_SetFullScale (env : DriverEnv) (s : BSPState)
    (Instance Function : Nat) (Fullscale : Int) : Option (Int × List DrvCall) :=
  if Instance ≥ CUSTOM_MOTION_INSTANCES_NBR then
    some (BSP_ERROR_WRONG_PARAM, [])
  else if s.ctxFunctions &&& Function = Function then
    match FunctionIndexRead Function with
    | none => none
    | some idx =>
      match s.funcDrv.read idx with
      | none => none
      | some d =>
        if env.funcSetFullScaleRet d ≠ BSP_ERROR_NONE then
          some (BSP_ERROR_COMPONENT_FAILURE, [DrvCall.funcSetFullScale d])
        else
          some (BSP_ERROR_NONE, [DrvCall.funcSetFullScale d])
  else
    some (BSP_ERROR_WRONG_PARAM, [])

/-- `CUSTOM_MOTION_SENSOR_DeInit (lines 109-127)`: instance check, then
`MotionDrv[Instance]->DeInit(MotionCompObj[Instance])`; dereferencing a
NULL `MotionDrv` entry is undefined behaviour (`none`). -/
def CUSTOM_MOTION_SENSOR_DeInit (env : DriverEnv) (s : BSPState)
    (Instance : Nat) : Option (Int × List DrvCall) :=
  if Instance ≥ CUSTOM_MOTION_INSTANCES_NBR then
    some (BSP_ERROR_WRONG_PARAM, [])
  else
    match s.drvBound with
    | false => none
    | true =>
      if env.commonDeInitRet ≠ BSP_ERROR_NONE then
        some (BSP_ERROR_COMPONENT_FAILURE, [DrvCall.commonDeInit])
      else
        some (BSP_ERROR_NONE, [DrvCall.commonDeInit])

/-- `CUSTOM_MOTION_SENSOR_GetCapabilities (lines 135-153)` (the
`Capabilities` out parameter is written by the driver; only the status is
modelled). -/
def CUSTOM_MOTION_SENSOR_GetCapabilities (env : DriverEnv) (s : BSPState)
    (Instance : Nat) : Option (Int × List DrvCall) :=
  if Instance ≥ CUSTOM_MOTION_INSTANCES_NBR then
    some (BSP_ERROR_WRONG_PARAM, [])
  else
    match s.drvBound with
    | false => none
    | true =>
      if env.commonGetCapRet ≠ BSP_ERROR_NONE then
        some (BSP_ERROR_UNKNOWN_COMPONENT, [DrvCall.commonGetCapabilities])
      else
        some (BSP_ERROR_NONE, [DrvCall.commonGetCapabilities])

/-- `CUSTOM_MOTION_SENSOR_ReadID (lines 161-179)`. -/
def CUSTOM_MOTION_SENSOR_ReadID (env : DriverEnv) (s : BSPState)
    (Instance : Nat) : Option (Int × List DrvCall) :=
  if Instance ≥ CUSTOM_MOTION_INSTANCES_NBR then
    some (BSP_ERROR_WRONG_PARAM, [])
  else
    match s.drvBound with
    | false => none
    | true =>
      if env.commonReadIDRet ≠ BSP_ERROR_NONE then
        some (BSP_ERROR_UNKNOWN_COMPONENT, [DrvCall.commonReadID])
      else
        some (BSP_ERROR_NONE, [DrvCall.commonReadID])

/-- Tail of `LSM6DSOX_0_Probe (lines 612-616)`: with `ret == BSP_ERROR_NONE`
up to here, requesting MAGNETO makes the probe fail with COMPONENT_FAILURE
(the component has no magnetometer); state and trace are passed through. -/
def probeBindMag (Functions : Nat) (s : BSPState) (tr : List DrvCall) :
    Int × BSPState × List DrvCall :=
  if Functions &&& MOTION_MAGNETO = MOTION_MAGNETO then
    (BSP_ERROR_COMPONENT_FAILURE, s, tr)
  else
    (BSP_ERROR_NONE, s, tr)

/-- `LSM6DSOX_0_Probe (lines 598-611)`: the ACCELERO branch. `n` is the
number of common-driver Init calls made so far in this probe. On a failed
driver Init the probe's `ret` becomes COMPONENT_FAILURE and the remaining
guarded branches are skipped (their `ret == BSP_ERROR_NONE` conjunct is
false), so the probe returns with the state as already written. -/
def probeBindAcc (env : DriverEnv) (Functions : Nat) (s : BSPState)
    (tr : List DrvCall) (n : Nat) : Int × BSPState × List DrvCall :=
  if (Functions &&& MOTION_ACCELERO = MOTION_ACCELERO) ∧ env.cap.Acc = 1 then
    let s2 := { s with funcDrv := s.funcDrv.write 1 (some FuncDrvId.accDrv) }
    if env.commonInitRet n ≠ LSM6DSOX_OK then
      (BSP_ERROR_COMPONENT_FAILURE, s2, tr ++ [DrvCall.commonInit])
    else
      probeBindMag Functions s2 (tr ++ [DrvCall.commonInit])
  else
    probeBindMag Functions s tr

/-- `LSM6DSOX_0_Probe (lines 575-611)`, else-branch after the identity
checks: store the capability mask in `MotionCtx`, bind `MotionCompObj` and
the common driver, then the GYRO branch (slot `FunctionIndex[MOTION_GYRO]
= 0` is written before the common driver's Init is called). -/
def probeBind (env : DriverEnv) (Functions : Nat) (s : BSPState)
    (tr : List DrvCall) : Int × BSPState × List DrvCall :=
  let s1 : BSPState :=
    { s with ctxFunctions := ctxMaskOf env.cap, objBound := true, drvBound := true }
  if (Functions &&& MOTION_GYRO = MOTION_GYRO) ∧ env.cap.Gyro = 1 then
    let s2 := { s1 with funcDrv := s1.funcDrv.write 0 (some FuncDrvId.gyroDrv) }
    if env.commonInitRet 0 ≠ LSM6DSOX_OK then
      (BSP_ERROR_COMPONENT_FAILURE, s2, tr ++ [DrvCall.commonInit])
    else
      probeBindAcc env Functions s2 (tr ++ [DrvCall.commonInit]) 1
  else
    probeBindAcc env Functions s1 tr 0

/-- `LSM6DSOX_0_Probe (lines 546-620)`: register the bus I/O, read and
check the identity register, then bind capabilities, tables and drivers.
Returns the BSP status, the (possibly partially) mutated state, and the
driver calls made. -/
def LSM6DSOX_0_Probe (env : DriverEnv) (s : BSPState) (Functions : Nat) :
    Int × BSPState × List DrvCall :=
  if env.regBusRet ≠ LSM6DSOX_OK then
    (BSP_ERROR_UNKNOWN_COMPONENT, s, [DrvCall.regBus])
  else if env.readIDRet ≠ LSM6DSOX_OK then
    (BSP_ERROR_UNKNOWN_COMPONENT, s, [DrvCall.regBus, DrvCall.lsmReadID])
  else if env.readIDVal ≠ LSM6DSOX_ID then
    (BSP_ERROR_UNKNOWN_COMPONENT, s, [DrvCall.regBus, DrvCall.lsmReadID])
  else
    probeBind env Functions s
      [DrvCall.regBus, DrvCall.lsmReadID, DrvCall.lsmGetCapabilities]

/-- The enable loop of `CUSTOM_MOTION_SENSOR_Init (lines 89-99)`:
`for (i = 0; i < CUSTOM_MOTION_FUNCTIONS_NBR; i++)` with
`function = MOTION_GYRO` doubled each iteration; `k` counts the remaining
iterations. For each function both requested and in `component_functions`,
dispatch `->Enable` through the per-function table; a driver failure
returns COMPONENT_FAILURE immediately. `none` = undefined behaviour (NULL
slot dereference). -/
def initEnableLoop (env : DriverEnv) (s : BSPState) (Functions compF : Nat) :
    Nat → Nat → Option (Int × List DrvCall)
  | 0, _ => some (BSP_ERROR_NONE, [])
  | k + 1, function =>
    if (Functions &&& function = function) ∧ (compF &&& function = function) then
      match FunctionIndexRead function with
      | none => none
      | some idx =>
        match s.funcDrv.read idx with
        | none => none
        | some d =>
          if env.funcEnableRet d ≠ BSP_ERROR_NONE then
            some (BSP_ERROR_COMPONENT_FAILURE, [DrvCall.funcEnable d])
          else
            match initEnableLoop env s Functions compF k (function <<< 1) with
            | none => none
            | some r => some (r.1, DrvCall.funcEnable d :: r.2)
    else
      initEnableLoop env s Functions compF k (function <<< 1)

/-- `CUSTOM_MOTION_SENSOR_Init (lines 45-102)`: switch on the instance
(only `CUSTOM_LSM6DSOX_0` exists; any other value hits the default
`BSP_ERROR_WRONG_PARAM` case); a failed probe yields `BSP_ERROR_NO_INIT`;
then the capability query via the common driver and the enable loop.
Returns status, resulting state and driver-call trace (`none` = undefined
behaviour inside the loop). -/
def CUSTOM_MOTION_SENSOR_Init (env : DriverEnv) (s : BSPState)
    (Instance Functions : Nat) : Option (Int × BSPState × List DrvCall) :=
  if Instance = CUSTOM_LSM6DSOX_0 then
    let pr := LSM6DSOX_0_Probe env s Functions
    if pr.1 ≠ BSP_ERROR_NONE then
      some (BSP_ERROR_NO_INIT, pr.2.1, pr.2.2)
    else if env.commonGetCapRet ≠ BSP_ERROR_NONE then
      some (BSP_ERROR_UNKNOWN_COMPONENT, pr.2.1,
            pr.2.2 ++ [DrvCall.commonGetCapabilities])
    else
      match initEnableLoop env pr.2.1 Functions (componentFunctionsOf env.cap)
          CUSTOM_MOTION_FUNCTIONS_NBR MOTION_GYRO with
      | none => none
      | some r =>
        some (r.1, pr.2.1, pr.2.2 ++ [DrvCall.commonGetCapabilities] ++ r.2)
  else
    some (BSP_ERROR_WRONG_PARAM, s, [])

/-! ## Concrete driver environments used as test inputs -/

/-- A fully healthy LSM6DSOX: bus registration, identity read and every
driver entry point succeed; the capability record reports accelerometer
and gyroscope but no magnetometer (as the real part does). -/
def goodEnv : DriverEnv :=
  { regBusRet := LSM6DSOX_OK
    readIDRet := LSM6DSOX_OK
    readIDVal := LSM6DSOX_ID
    cap := { Acc := 1, Gyro := 1, Magneto := 0 }
    commonGetCapRet := BSP_ERROR_NONE
    commonInitRet := fun _ => LSM6DSOX_OK
    commonDeInitRet := BSP_ERROR_NONE
    commonReadIDRet := BSP_ERROR_NONE
    funcEnableRet := fun _ => BSP_ERROR_NONE
    funcDisableRet := fun _ => BSP_ERROR_NONE
    funcGetAxesRet := fun _ => BSP_ERROR_NONE
    funcGetAxesRawRet := fun _ => BSP_ERROR_NONE
    funcGetSensitivityRet := fun _ => BSP_ERROR_NONE
    funcGetOdrRet := fun _ => BSP_ERROR_NONE
    funcSetOdrRet := fun _ => BSP_ERROR_NONE
    funcGetFullScaleRet := fun _ => BSP_ERROR_NONE
    funcSetFullScaleRet := fun _ => BSP_ERROR_NONE }

/-! ## C1 -/

/-- C1 counterexample: on a healthy driver reporting no magnetometer,
`CUSTOM_MOTION_SENSOR_Init` with `Functions = MOTION_GYRO | MOTION_ACCELERO
| MOTION_MAGNETO` returns `BSP_ERROR_NO_INIT`, not
`BSP_ERROR_COMPONENT_FAILURE` as the claim states: the probe's
COMPONENT_FAILURE is swallowed by `Init`'s `return BSP_ERROR_NO_INIT`
(lines 57-60). -/
theorem C1_counterexample :
    (CUSTOM_MOTION_SENSOR_Init goodEnv initialState CUSTOM_LSM6DSOX_0
        (MOTION_GYRO ||| MOTION_ACCELERO ||| MOTION_MAGNETO)).map (fun r => r.1)
      = some BSP_ERROR_NO_INIT ∧
    BSP_ERROR_NO_INIT ≠ BSP_ERROR_COMPONENT_FAILURE := by
  refine ⟨rfl, by decide⟩

/-- C1 (amended): calling `CUSTOM_MOTION_SENSOR_Init` with a Functions mask
containing MOTION_MAGNETO, on an instance whose driver reports no
magnetometer, makes `LSM6DSOX_0_Probe` fail with
`BSP_ERROR_COMPONENT_FAILURE` — even when the GYRO and ACCELERO parts of
the same mask were requested, supported and successfully initialized — and
`CUSTOM_MOTION_SENSOR_Init` consequently returns `BSP_ERROR_NO_INIT`. -/
theorem C1_magneto_fail_fast (env : DriverEnv) (s : BSPState) (Functions : Nat)
    (hreg : env.regBusRet = LSM6DSOX_OK) (hrid : env.readIDRet = LSM6DSOX_OK)
    (hid : env.readIDVal = LSM6DSOX_ID) (hmagcap : env.cap.Magneto = 0)
    (hmag : Functions &&& MOTION_MAGNETO = MOTION_MAGNETO)
    (hinit : ∀ n, env.commonInitRet n = LSM6DSOX_OK) :
    (LSM6DSOX_0_Probe env s Functions).1 = BSP_ERROR_COMPONENT_FAILURE ∧
    (CUSTOM_MOTION_SENSOR_Init env s CUSTOM_LSM6DSOX_0 Functions).map (fun r => r.1)
      = some BSP_ERROR_NO_INIT := by
  have hprobe : (LSM6DSOX_0_Probe env s Functions).1 = BSP_ERROR_COMPONENT_FAILURE := by
    simp only [LSM6DSOX_0_Probe, probeBind, probeBindAcc, probeBindMag,
      hreg, hrid, hid, hinit, hmag]
    split_ifs <;> simp_all
  refine ⟨hprobe, ?_⟩
  simp only [CUSTOM_MOTION_SENSOR_Init, CUSTOM_LSM6DSOX_0, hprobe]
  simp [BSP_ERROR_COMPONENT_FAILURE, BSP_ERROR_NONE]

/-- Witness for `C1_magneto_fail_fast` at `goodEnv`, from the
zero-initialised state, with all three functions requested. -/
theorem C1_magneto_fail_fast_witness :
    (LSM6DSOX_0_Probe goodEnv initialState 7).1 = BSP_ERROR_COMPONENT_FAILURE ∧
    (CUSTOM_MOTION_SENSOR_Init goodEnv initialState CUSTOM_LSM6DSOX_0 7).map (fun r => r.1)
      = some BSP_ERROR_NO_INIT :=
  C1_magneto_fail_fast goodEnv initialState 7 rfl rfl rfl rfl (by decide)
    (fun _ => rfl)

/-! ## C2 -/

/-- C2: for every `Instance ≥ CUSTOM_MOTION_INSTANCES_NBR`, each of the 13
public API operations returns `BSP_ERROR_WRONG_PARAM` with an empty
driver-call trace (no underlying driver function is invoked), and `Init`
leaves the state untouched. -/
theorem C2_invalid_instance_rejected (env : DriverEnv) (s : BSPState)
    (Instance : Nat) (h : Instance ≥ CUSTOM_MOTION_INSTANCES_NBR)
    (Functions Function : Nat) (Odr : Float) (Fullscale : Int) :
    CUSTOM_MOTION_SENSOR_Init env s Instance Functions
      = some (BSP_ERROR_WRONG_PARAM, s, []) ∧
    CUSTOM_MOTION_SENSOR_DeInit env s Instance = some (BSP_ERROR_WRONG_PARAM, []) ∧
    CUSTOM_MOTION_SENSOR_GetCapabilities env s Instance
      = some (BSP_ERROR_WRONG_PARAM, []) ∧
    CUSTOM_MOTION_SENSOR_ReadID env s Instance = some (BSP_ERROR_WRONG_PARAM, []) ∧
    CUSTOM_MOTION_SENSOR_Enable env s Instance Function
      = some (BSP_ERROR_WRONG_PARAM, []) ∧
    CUSTOM_MOTION_SENSOR_Disable env s Instance Function
      = some (BSP_ERROR_WRONG_PARAM, []) ∧
    CUSTOM_MOTION_SENSOR_GetAxes env s Instance Function
      = some (BSP_ERROR_WRONG_PARAM, []) ∧
    CUSTOM_MOTION_SENSOR_GetAxesRaw env s Instance Function
      = some (BSP_ERROR_WRONG_PARAM, []) ∧
    CUSTOM_MOTION_SENSOR_GetSensitivity env s Instance Function
      = some (BSP_ERROR_WRONG_PARAM, []) ∧
    CUSTOM_MOTION_SENSOR_GetOutputDataRate env s Instance Function
      = some (BSP_ERROR_WRONG_PARAM, []) ∧
    CUSTOM_MOTION_SENSOR_SetOutputDataRate env s Instance Function Odr
      = some (BSP_ERROR_WRONG_PARAM, []) ∧
    CUSTOM_MOTION_SENSOR_GetFullScale env s Instance Function
      = some (BSP_ERROR_WRONG_PARAM, []) ∧
    CUSTOM_MOTION_SENSOR_SetFullScale env s Instance Function Fullscale
      = some (BSP_ERROR_WRONG_PARAM, []) := by
  have h1 : 1 ≤ Instance := h
  have h0 : ¬ Instance = CUSTOM_LSM6DSOX_0 := by
    simp only [CUSTOM_LSM6DSOX_0]
    omega
  refine ⟨?_, ?_, ?_, ?_, ?_, ?_, ?_, ?_, ?_, ?_, ?_, ?_, ?_⟩ <;>
    simp [CUSTOM_MOTION_SENSOR_Init, CUSTOM_MOTION_SENSOR_DeInit,
      CUSTOM_MOTION_SENSOR_GetCapabilities, CUSTOM_MOTION_SENSOR_ReadID,
      CUSTOM_MOTION_SENSOR_Enable, CUSTOM_MOTION_SENSOR_Disable,
      CUSTOM_MOTION_SENSOR_GetAxes, CUSTOM_MOTION_SENSOR_GetAxesRaw,
      CUSTOM_MOTION_SENSOR_GetSensitivity, CUSTOM_MOTION_SENSOR_GetOutputDataRate,
      CUSTOM_MOTION_SENSOR_SetOutputDataRate, CUSTOM_MOTION_SENSOR_GetFullScale,
      CUSTOM_MOTION_SENSOR_SetFullScale, h, h0]

/-- Witness for `C2_invalid_instance_rejected` at `Instance = 1` (the first
out-of-range instance), `goodEnv`, the zero-initialised state. -/
theorem C2_invalid_instance_rejected_witness :
    CUSTOM_MOTION_SENSOR_Init goodEnv initialState 1 3
      = some (BSP_ERROR_WRONG_PARAM, initialState, []) ∧
    CUSTOM_MOTION_SENSOR_DeInit goodEnv initialState 1 = some (BSP_ERROR_WRONG_PARAM, []) ∧
    CUSTOM_MOTION_SENSOR_GetCapabilities goodEnv initialState 1
      = some (BSP_ERROR_WRONG_PARAM, []) ∧
    CUSTOM_MOTION_SENSOR_ReadID goodEnv initialState 1 = some (BSP_ERROR_WRONG_PARAM, []) ∧
    CUSTOM_MOTION_SENSOR_Enable goodEnv initialState 1 1
      = some (BSP_ERROR_WRONG_PARAM, []) ∧
    CUSTOM_MOTION_SENSOR_Disable goodEnv initialState 1 1
      = some (BSP_ERROR_WRONG_PARAM, []) ∧
    CUSTOM_MOTION_SENSOR_GetAxes goodEnv initialState 1 1
      = some (BSP_ERROR_WRONG_PARAM, []) ∧
    CUSTOM_MOTION_SENSOR_GetAxesRaw goodEnv initialState 1 1
      = some (BSP_ERROR_WRONG_PARAM, []) ∧
    CUSTOM_MOTION_SENSOR_GetSensitivity goodEnv initialState 1 1
      = some (BSP_ERROR_WRONG_PARAM, []) ∧
    CUSTOM_MOTION_SENSOR_GetOutputDataRate goodEnv initialState 1 1
      = some (BSP_ERROR_WRONG_PARAM, []) ∧
    CUSTOM_MOTION_SENSOR_SetOutputDataRate goodEnv initialState 1 1 104
      = some (BSP_ERROR_WRONG_PARAM, []) ∧
    CUSTOM_MOTION_SENSOR_GetFullScale goodEnv initialState 1 1
      = some (BSP_ERROR_WRONG_PARAM, []) ∧
    CUSTOM_MOTION_SENSOR_SetFullScale goodEnv initialState 1 1 2000
      = some (BSP_ERROR_WRONG_PARAM, []) :=
  C2_invalid_instance_rejected goodEnv initialState 1 (by decide) 3 1 104 2000

/-! ## C3 -/

/-- C3: for every function-scoped call on the valid instance
`CUSTOM_LSM6DSOX_0` whose requested `Function` is not a subset of that
instance's context mask (`MotionCtx[Instance].Functions & Function ≠
Function`), the call returns `BSP_ERROR_WRONG_PARAM` with an empty
driver-call trace — no underlying driver function is invoked. -/
theorem C3_unsupported_function_rejected (env : DriverEnv) (s : BSPState)
    (Function : Nat) (h : ¬ s.ctxFunctions &&& Function = Function)
    (Odr : Float) (Fullscale : Int) :
    CUSTOM_MOTION_SENSOR_Enable env s CUSTOM_LSM6DSOX_0 Function
      = some (BSP_ERROR_WRONG_PARAM, []) ∧
    CUSTOM_MOTION_SENSOR_Disable env s CUSTOM_LSM6DSOX_0 Function
      = some (BSP_ERROR_WRONG_PARAM, []) ∧
    CUSTOM_MOTION_SENSOR_GetAxes env s CUSTOM_LSM6DSOX_0 Function
      = some (BSP_ERROR_WRONG_PARAM, []) ∧
    CUSTOM_MOTION_SENSOR_GetAxesRaw env s CUSTOM_LSM6DSOX_0 Function
      = some (BSP_ERROR_WRONG_PARAM, []) ∧
    CUSTOM_MOTION_SENSOR_GetSensitivity env s CUSTOM_LSM6DSOX_0 Function
      = some (BSP_ERROR_WRONG_PARAM, []) ∧
    CUSTOM_MOTION_SENSOR_GetOutputDataRate env s CUSTOM_LSM6DSOX_0 Function
      = some (BSP_ERROR_WRONG_PARAM, []) ∧
    CUSTOM_MOTION_SENSOR_SetOutputDataRate env s CUSTOM_LSM6DSOX_0 Function Odr
      = some (BSP_ERROR_WRONG_PARAM, []) ∧
    CUSTOM_MOTION_SENSOR_GetFullScale env s CUSTOM_LSM6DSOX_0 Function
      = some (BSP_ERROR_WRONG_PARAM, []) ∧
    CUSTOM_MOTION_SENSOR_SetFullScale env s CUSTOM_LSM6DSOX_0 Function Fullscale
      = some (BSP_ERROR_WRONG_PARAM, []) := by
  refine ⟨?_, ?_, ?_, ?_, ?_, ?_, ?_, ?_, ?_⟩ <;>
    simp [CUSTOM_MOTION_SENSOR_Enable, CUSTOM_MOTION_SENSOR_Disable,
      CUSTOM_MOTION_SENSOR_GetAxes, CUSTOM_MOTION_SENSOR_GetAxesRaw,
      CUSTOM_MOTION_SENSOR_GetSensitivity, CUSTOM_MOTION_SENSOR_GetOutputDataRate,
      CUSTOM_MOTION_SENSOR_SetOutputDataRate, CUSTOM_MOTION_SENSOR_GetFullScale,
      CUSTOM_MOTION_SENSOR_SetFullScale, CUSTOM_LSM6DSOX_0,
      CUSTOM_MOTION_INSTANCES_NBR, h]

/-- Witness for `C3_unsupported_function_rejected`: the zero-initialised
state supports nothing, so requesting `MOTION_MAGNETO` is not a subset of
its context mask. -/
theorem C3_unsupported_function_rejected_witness :
    CUSTOM_MOTION_SENSOR_Enable goodEnv initialState CUSTOM_LSM6DSOX_0 MOTION_MAGNETO
      = some (BSP_ERROR_WRONG_PARAM, []) ∧
    CUSTOM_MOTION_SENSOR_Disable goodEnv initialState CUSTOM_LSM6DSOX_0 MOTION_MAGNETO
      = some (BSP_ERROR_WRONG_PARAM, []) ∧
    CUSTOM_MOTION_SENSOR_GetAxes goodEnv initialState CUSTOM_LSM6DSOX_0 MOTION_MAGNETO
      = some (BSP_ERROR_WRONG_PARAM, []) ∧
    CUSTOM_MOTION_SENSOR_GetAxesRaw goodEnv initialState CUSTOM_LSM6DSOX_0 MOTION_MAGNETO
      = some (BSP_ERROR_WRONG_PARAM, []) ∧
    CUSTOM_MOTION_SENSOR_GetSensitivity goodEnv initialState CUSTOM_LSM6DSOX_0 MOTION_MAGNETO
      = some (BSP_ERROR_WRONG_PARAM, []) ∧
    CUSTOM_MOTION_SENSOR_GetOutputDataRate goodEnv initialState CUSTOM_LSM6DSOX_0 MOTION_MAGNETO
      = some (BSP_ERROR_WRONG_PARAM, []) ∧
    CUSTOM_MOTION_SENSOR_SetOutputDataRate goodEnv initialState CUSTOM_LSM6DSOX_0 MOTION_MAGNETO 104
      = some (BSP_ERROR_WRONG_PARAM, []) ∧
    CUSTOM_MOTION_SENSOR_GetFullScale goodEnv initialState CUSTOM_LSM6DSOX_0 MOTION_MAGNETO
      = some (BSP_ERROR_WRONG_PARAM, []) ∧
    CUSTOM_MOTION_SENSOR_SetFullScale goodEnv initialState CUSTOM_LSM6DSOX_0 MOTION_MAGNETO 2000
      = some (BSP_ERROR_WRONG_PARAM, []) :=
  C3_unsupported_function_rejected goodEnv initialState MOTION_MAGNETO (by decide) 104 2000

/-! ## C4 -/

/-- `x &&& r = x` when every bit of `x` is a bit of `r`. -/
lemma land_absorb_of_mem (x r : Nat)
    (h : ∀ i, Nat.testBit x i = true → Nat.testBit r i = true) : x &&& r = x := by
  apply Nat.eq_of_testBit_eq
  intro i
  simp only [Nat.testBit_land]
  cases hx : Nat.testBit x i
  · simp
  · simp [h i hx]

/-- The `component_functions` mask computed inside `Init`'s enable loop is
always a subset of the context mask the probe stored for the same
capability record, so the loop's table accesses stay within the Sensor
Context mask. -/
lemma comp_subset_ctx (cap : Capabilities) :
    componentFunctionsOf cap &&& ctxMaskOf cap = componentFunctionsOf cap := by
  rcases cap with ⟨a, g, m⟩
  apply land_absorb_of_mem
  intro i hi
  simp only [componentFunctionsOf, ctxMaskOf, MOTION_GYRO, MOTION_ACCELERO,
    MOTION_MAGNETO, Nat.testBit_lor] at hi ⊢
  by_cases ha : a = 1 <;> by_cases hg : g = 1 <;> by_cases hm : m = 1 <;>
    simp [ha, hg, hm] at hi ⊢ <;> tauto

/-- C4: no API call dereferences a `MotionFuncDrv` dispatch slot for a
Function outside the instance's Sensor Context mask. For every
function-scoped operation, when the mask-subset check fails the call
returns a defined `BSP_ERROR_WRONG_PARAM` result with an empty trace for
*every* state — including one whose dispatch table is entirely NULL — so
the table entry is never read (a read of an unbound slot would be `none`).
For `Init`, the enable loop is guarded by `component_functions`, which is
always a subset of the context mask stored by the probe from the same
capability record (`comp_subset_ctx`). -/
theorem C4_subset_check_guards_table (env : DriverEnv) (s : BSPState)
    (Function : Nat) (h : ¬ s.ctxFunctions &&& Function = Function)
    (Odr : Float) (Fullscale : Int) :
    (∀ cap : Capabilities,
       componentFunctionsOf cap &&& ctxMaskOf cap = componentFunctionsOf cap) ∧
    CUSTOM_MOTION_SENSOR_Enable env s CUSTOM_LSM6DSOX_0 Function
      = some (BSP_ERROR_WRONG_PARAM, []) ∧
    CUSTOM_MOTION_SENSOR_Disable env s CUSTOM_LSM6DSOX_0 Function
      = some (BSP_ERROR_WRONG_PARAM, []) ∧
    CUSTOM_MOTION_SENSOR_GetAxes env s CUSTOM_LSM6DSOX_0 Function
      = some (BSP_ERROR_WRONG_PARAM, []) ∧
    CUSTOM_MOTION_SENSOR_GetAxesRaw env s CUSTOM_LSM6DSOX_0 Function
      = some (BSP_ERROR_WRONG_PARAM, []) ∧
    CUSTOM_MOTION_SENSOR_GetSensitivity env s CUSTOM_LSM6DSOX_0 Function
      = some (BSP_ERROR_WRONG_PARAM, []) ∧
    CUSTOM_MOTION_SENSOR_GetOutputDataRate env s CUSTOM_LSM6DSOX_0 Function
      = some (BSP_ERROR_WRONG_PARAM, []) ∧
    CUSTOM_MOTION_SENSOR_SetOutputDataRate env s CUSTOM_LSM6DSOX_0 Function Odr
      = some (BSP_ERROR_WRONG_PARAM, []) ∧
    CUSTOM_MOTION_SENSOR_GetFullScale env s CUSTOM_LSM6DSOX_0 Function
      = some (BSP_ERROR_WRONG_PARAM, []) ∧
    CUSTOM_MOTION_SENSOR_SetFullScale env s CUSTOM_LSM6DSOX_0 Function Fullscale
      = some (BSP_ERROR_WRONG_PARAM, []) := by
  refine ⟨comp_subset_ctx, ?_, ?_, ?_, ?_, ?_, ?_, ?_, ?_, ?_⟩ <;>
    simp [CUSTOM_MOTION_SENSOR_Enable, CUSTOM_MOTION_SENSOR_Disable,
      CUSTOM_MOTION_SENSOR_GetAxes, CUSTOM_MOTION_SENSOR_GetAxesRaw,
      CUSTOM_MOTION_SENSOR_GetSensitivity, CUSTOM_MOTION_SENSOR_GetOutputDataRate,
      CUSTOM_MOTION_SENSOR_SetOutputDataRate, CUSTOM_MOTION_SENSOR_GetFullScale,
      CUSTOM_MOTION_SENSOR_SetFullScale, CUSTOM_LSM6DSOX_0,
      CUSTOM_MOTION_INSTANCES_NBR, h]

/-- Witness for `C4_subset_check_guards_table`: the zero-initialised state
(entirely NULL dispatch table), requesting `MOTION_GYRO`. -/
theorem C4_subset_check_guards_table_witness :
    (∀ cap : Capabilities,
       componentFunctionsOf cap &&& ctxMaskOf cap = componentFunctionsOf cap) ∧
    CUSTOM_MOTION_SENSOR_Enable goodEnv initialState CUSTOM_LSM6DSOX_0 MOTION_GYRO
      = some (BSP_ERROR_WRONG_PARAM, []) ∧
    CUSTOM_MOTION_SENSOR_Disable goodEnv initialState CUSTOM_LSM6DSOX_0 MOTION_GYRO
      = some (BSP_ERROR_WRONG_PARAM, []) ∧
    CUSTOM_MOTION_SENSOR_GetAxes goodEnv initialState CUSTOM_LSM6DSOX_0 MOTION_GYRO
      = some (BSP_ERROR_WRONG_PARAM, []) ∧
    CUSTOM_MOTION_SENSOR_GetAxesRaw goodEnv initialState CUSTOM_LSM6DSOX_0 MOTION_GYRO
      = some (BSP_ERROR_WRONG_PARAM, []) ∧
    CUSTOM_MOTION_SENSOR_GetSensitivity goodEnv initialState CUSTOM_LSM6DSOX_0 MOTION_GYRO
      = some (BSP_ERROR_WRONG_PARAM, []) ∧
    CUSTOM_MOTION_SENSOR_GetOutputDataRate goodEnv initialState CUSTOM_LSM6DSOX_0 MOTION_GYRO
      = some (BSP_ERROR_WRONG_PARAM, []) ∧
    CUSTOM_MOTION_SENSOR_SetOutputDataRate goodEnv initialState CUSTOM_LSM6DSOX_0 MOTION_GYRO 104
      = some (BSP_ERROR_WRONG_PARAM, []) ∧
    CUSTOM_MOTION_SENSOR_GetFullScale goodEnv initialState CUSTOM_LSM6DSOX_0 MOTION_GYRO
      = some (BSP_ERROR_WRONG_PARAM, []) ∧
    CUSTOM_MOTION_SENSOR_SetFullScale goodEnv initialState CUSTOM_LSM6DSOX_0 MOTION_GYRO 2000
      = some (BSP_ERROR_WRONG_PARAM, []) :=
  C4_subset_check_guards_table goodEnv initialState MOTION_GYRO (by decide) 104 2000

/-! ## C5 -/

/-- C5: when the probe reads an identity-register value different from
`LSM6DSOX_ID`, it returns `BSP_ERROR_UNKNOWN_COMPONENT` and leaves the
state — in particular the Sensor Context mask — exactly as it was (zero
before any successful probe), so every subsequent function-scoped call on
that instance with a motion-function value (any nonzero `Function`)
returns `BSP_ERROR_WRONG_PARAM`. -/
theorem C5_bad_id_unknown_component (env : DriverEnv) (s : BSPState)
    (Functions Function : Nat)
    (hreg : env.regBusRet = LSM6DSOX_OK) (hrid : env.readIDRet = LSM6DSOX_OK)
    (hid : env.readIDVal ≠ LSM6DSOX_ID)
    (hzero : s.ctxFunctions = 0) (hf : Function ≠ 0)
    (Odr : Float) (Fullscale : Int) :
    LSM6DSOX_0_Probe env s Functions
      = (BSP_ERROR_UNKNOWN_COMPONENT, s, [DrvCall.regBus, DrvCall.lsmReadID]) ∧
    CUSTOM_MOTION_SENSOR_Enable env (LSM6DSOX_0_Probe env s Functions).2.1
        CUSTOM_LSM6DSOX_0 Function = some (BSP_ERROR_WRONG_PARAM, []) ∧
    CUSTOM_MOTION_SENSOR_Disable env (LSM6DSOX_0_Probe env s Functions).2.1
        CUSTOM_LSM6DSOX_0 Function = some (BSP_ERROR_WRONG_PARAM, []) ∧
    CUSTOM_MOTION_SENSOR_GetAxes env (LSM6DSOX_0_Probe env s Functions).2.1
        CUSTOM_LSM6DSOX_0 Function = some (BSP_ERROR_WRONG_PARAM, []) ∧
    CUSTOM_MOTION_SENSOR_GetAxesRaw env (LSM6DSOX_0_Probe env s Functions).2.1
        CUSTOM_LSM6DSOX_0 Function = some (BSP_ERROR_WRONG_PARAM, []) ∧
    CUSTOM_MOTION_SENSOR_GetSensitivity env (LSM6DSOX_0_Probe env s Functions).2.1
        CUSTOM_LSM6DSOX_0 Function = some (BSP_ERROR_WRONG_PARAM, []) ∧
    CUSTOM_MOTION_SENSOR_GetOutputDataRate env (LSM6DSOX_0_Probe env s Functions).2.1
        CUSTOM_LSM6DSOX_0 Function = some (BSP_ERROR_WRONG_PARAM, []) ∧
    CUSTOM_MOTION_SENSOR_SetOutputDataRate env (LSM6DSOX_0_Probe env s Functions).2.1
        CUSTOM_LSM6DSOX_0 Function Odr = some (BSP_ERROR_WRONG_PARAM, []) ∧
    CUSTOM_MOTION_SENSOR_GetFullScale env (LSM6DSOX_0_Probe env s Functions).2.1
        CUSTOM_LSM6DSOX_0 Function = some (BSP_ERROR_WRONG_PARAM, []) ∧
    CUSTOM_MOTION_SENSOR_SetFullScale env (LSM6DSOX_0_Probe env s Functions).2.1
        CUSTOM_LSM6DSOX_0 Function Fullscale = some (BSP_ERROR_WRONG_PARAM, []) := by
  have hp : LSM6DSOX_0_Probe env s Functions
      = (BSP_ERROR_UNKNOWN_COMPONENT, s, [DrvCall.regBus, DrvCall.lsmReadID]) := by
    simp [LSM6DSOX_0_Probe, hreg, hrid, hid]
  have hmask : ¬ s.ctxFunctions &&& Function = Function := by
    simp [hzero, Nat.zero_and]
    omega
  refine ⟨hp, ?_, ?_, ?_, ?_, ?_, ?_, ?_, ?_, ?_⟩ <;>
    rw [hp] <;>
    simp [CUSTOM_MOTION_SENSOR_Enable, CUSTOM_MOTION_SENSOR_Disable,
      CUSTOM_MOTION_SENSOR_GetAxes, CUSTOM_MOTION_SENSOR_GetAxesRaw,
      CUSTOM_MOTION_SENSOR_GetSensitivity, CUSTOM_MOTION_SENSOR_GetOutputDataRate,
      CUSTOM_MOTION_SENSOR_SetOutputDataRate, CUSTOM_MOTION_SENSOR_GetFullScale,
      CUSTOM_MOTION_SENSOR_SetFullScale, CUSTOM_LSM6DSOX_0,
      CUSTOM_MOTION_INSTANCES_NBR, hmask]

/-- Witness for `C5_bad_id_unknown_component`: a device answering identity
byte `0x00` instead of `0x6C`, zero-initialised state, `Function =
MOTION_GYRO`. -/
theorem C5_bad_id_unknown_component_witness :
    LSM6DSOX_0_Probe { goodEnv with readIDVal := 0 } initialState 3
      = (BSP_ERROR_UNKNOWN_COMPONENT, initialState,
         [DrvCall.regBus, DrvCall.lsmReadID]) ∧
    CUSTOM_MOTION_SENSOR_Enable { goodEnv with readIDVal := 0 }
        (LSM6DSOX_0_Probe { goodEnv with readIDVal := 0 } initialState 3).2.1
        CUSTOM_LSM6DSOX_0 1 = some (BSP_ERROR_WRONG_PARAM, []) ∧
    CUSTOM_MOTION_SENSOR_Disable { goodEnv with readIDVal := 0 }
        (LSM6DSOX_0_Probe { goodEnv with readIDVal := 0 } initialState 3).2.1
        CUSTOM_LSM6DSOX_0 1 = some (BSP_ERROR_WRONG_PARAM, []) ∧
    CUSTOM_MOTION_SENSOR_GetAxes { goodEnv with readIDVal := 0 }
        (LSM6DSOX_0_Probe { goodEnv with readIDVal := 0 } initialState 3).2.1
        CUSTOM_LSM6DSOX_0 1 = some (BSP_ERROR_WRONG_PARAM, []) ∧
    CUSTOM_MOTION_SENSOR_GetAxesRaw { goodEnv with readIDVal := 0 }
        (LSM6DSOX_0_Probe { goodEnv with readIDVal := 0 } initialState 3).2.1
        CUSTOM_LSM6DSOX_0 1 = some (BSP_ERROR_WRONG_PARAM, []) ∧
    CUSTOM_MOTION_SENSOR_GetSensitivity { goodEnv with readIDVal := 0 }
        (LSM6DSOX_0_Probe { goodEnv with readIDVal := 0 } initialState 3).2.1
        CUSTOM_LSM6DSOX_0 1 = some (BSP_ERROR_WRONG_PARAM, []) ∧
    CUSTOM_MOTION_SENSOR_GetOutputDataRate { goodEnv with readIDVal := 0 }
        (LSM6DSOX_0_Probe { goodEnv with readIDVal := 0 } initialState 3).2.1
        CUSTOM_LSM6DSOX_0 1 = some (BSP_ERROR_WRONG_PARAM, []) ∧
    CUSTOM_MOTION_SENSOR_SetOutputDataRate { goodEnv with readIDVal := 0 }
        (LSM6DSOX_0_Probe { goodEnv with readIDVal := 0 } initialState 3).2.1
        CUSTOM_LSM6DSOX_0 1 104 = some (BSP_ERROR_WRONG_PARAM, []) ∧
    CUSTOM_MOTION_SENSOR_GetFullScale { goodEnv with readIDVal := 0 }
        (LSM6DSOX_0_Probe { goodEnv with readIDVal := 0 } initialState 3).2.1
        CUSTOM_LSM6DSOX_0 1 = some (BSP_ERROR_WRONG_PARAM, []) ∧
    CUSTOM_MOTION_SENSOR_SetFullScale { goodEnv with readIDVal := 0 }
        (LSM6DSOX_0_Probe { goodEnv with readIDVal := 0 } initialState 3).2.1
        CUSTOM_LSM6DSOX_0 1 2000 = some (BSP_ERROR_WRONG_PARAM, []) :=
  C5_bad_id_unknown_component { goodEnv with readIDVal := 0 } initialState 3 1
    rfl rfl (by decide) rfl (by decide) 104 2000

/-! ## C6 -/

/-- C6: `CUSTOM_MOTION_SENSOR_Init` with `Functions = MOTION_GYRO |
MOTION_ACCELERO` on a driver whose capability record reports both
gyroscope and accelerometer, with every driver call succeeding, returns
`BSP_ERROR_NONE` and its driver-call trace contains exactly two calls to
the common driver's Init (one per bound function group, both made by the
probe). -/
theorem C6_init_two_common_inits (env : DriverEnv) (s : BSPState)
    (hreg : env.regBusRet = LSM6DSOX_OK) (hrid : env.readIDRet = LSM6DSOX_OK)
    (hid : env.readIDVal = LSM6DSOX_ID)
    (hgyro : env.cap.Gyro = 1) (hacc : env.cap.Acc = 1)
    (hgcap : env.commonGetCapRet = BSP_ERROR_NONE)
    (hinit : ∀ n, env.commonInitRet n = LSM6DSOX_OK)
    (hen : ∀ d, env.funcEnableRet d = BSP_ERROR_NONE) :
    (CUSTOM_MOTION_SENSOR_Init env s CUSTOM_LSM6DSOX_0
        (MOTION_GYRO ||| MOTION_ACCELERO)).map
        (fun r => (r.1, r.2.2.count DrvCall.commonInit))
      = some (BSP_ERROR_NONE, 2) := by
  have e1 : (3 : Nat) &&& 1 = 1 := by decide
  have e2 : (3 : Nat) &&& 2 = 2 := by decide
  have e3 : (3 : Nat) &&& 4 = 0 := by decide
  have e4 : (7 : Nat) &&& 1 = 1 := by decide
  have e5 : (7 : Nat) &&& 2 = 2 := by decide
  have e6 : (7 : Nat) &&& 4 = 4 := by decide
  by_cases hm : env.cap.Magneto = 1 <;>
    simp [CUSTOM_MOTION_SENSOR_Init, LSM6DSOX_0_Probe, probeBind, probeBindAcc,
      probeBindMag, initEnableLoop, FunctionIndexRead, FunctionIndex,
      FuncTable.write, FuncTable.read, componentFunctionsOf, ctxMaskOf,
      MOTION_GYRO, MOTION_ACCELERO, MOTION_MAGNETO, CUSTOM_LSM6DSOX_0,
      CUSTOM_MOTION_FUNCTIONS_NBR, List.count_cons,
      e1, e2, e3, e4, e5, e6,
      hreg, hrid, hid, hgyro, hacc, hgcap, hinit, hen, hm]

/-- Witness for `C6_init_two_common_inits` at `goodEnv`, zero-initialised
state. -/
theorem C6_init_two_common_inits_witness :
    (CUSTOM_MOTION_SENSOR_Init goodEnv initialState CUSTOM_LSM6DSOX_0
        (MOTION_GYRO ||| MOTION_ACCELERO)).map
        (fun r => (r.1, r.2.2.count DrvCall.commonInit))
      = some (BSP_ERROR_NONE, 2) :=
  C6_init_two_common_inits goodEnv initialState rfl rfl rfl rfl rfl rfl
    (fun _ => rfl) (fun _ => rfl)

/-! ## C7 -/

/-- C7: `CUSTOM_MOTION_SENSOR_DeInit` on the valid, bound instance invokes
the common driver's DeInit exactly once (the trace is exactly
`[commonDeInit]`) and returns `BSP_ERROR_NONE` when that call succeeds;
when the driver's DeInit returns a non-success status the result is
`BSP_ERROR_COMPONENT_FAILURE` (still exactly one driver call). -/
theorem C7_deinit_forwards_once (env : DriverEnv) (s : BSPState)
    (hb : s.drvBound = true) :
    (env.commonDeInitRet = BSP_ERROR_NONE →
      CUSTOM_MOTION_SENSOR_DeInit env s CUSTOM_LSM6DSOX_0
        = some (BSP_ERROR_NONE, [DrvCall.commonDeInit])) ∧
    (env.commonDeInitRet ≠ BSP_ERROR_NONE →
      CUSTOM_MOTION_SENSOR_DeInit env s CUSTOM_LSM6DSOX_0
        = some (BSP_ERROR_COMPONENT_FAILURE, [DrvCall.commonDeInit])) := by
  constructor <;> intro hret <;>
    simp [CUSTOM_MOTION_SENSOR_DeInit, CUSTOM_LSM6DSOX_0,
      CUSTOM_MOTION_INSTANCES_NBR, hb, hret]

/-- Witness for `C7_deinit_forwards_once`: a bound state (as left by a
successful probe) under `goodEnv`, whose DeInit succeeds. -/
theorem C7_deinit_forwards_once_witness :
    (goodEnv.commonDeInitRet = BSP_ERROR_NONE →
      CUSTOM_MOTION_SENSOR_DeInit goodEnv { initialState with drvBound := true }
        CUSTOM_LSM6DSOX_0 = some (BSP_ERROR_NONE, [DrvCall.commonDeInit])) ∧
    (goodEnv.commonDeInitRet ≠ BSP_ERROR_NONE →
      CUSTOM_MOTION_SENSOR_DeInit goodEnv { initialState with drvBound := true }
        CUSTOM_LSM6DSOX_0
        = some (BSP_ERROR_COMPONENT_FAILURE, [DrvCall.commonDeInit])) :=
  C7_deinit_forwards_once goodEnv { initialState with drvBound := true } rfl

/-! ## C8 -/

/-- `goodEnv` whose second common-driver Init call fails: a probe that
binds the GYRO group successfully and then fails partway on the ACCELERO
group's Init. -/
def c8Env : DriverEnv :=
  { goodEnv with commonInitRet := fun n => if n = 0 then LSM6DSOX_OK else -1 }

/-- C8: once the probe's identity checks pass, the state it returns is
exactly the state written by the successful prefix of the bind sequence —
for *every* execution path, failing or not: the Sensor Context mask holds
the capability mask and the object/common-driver entries are bound
(written before any branch), slot 0 holds the gyro driver exactly when the
GYRO branch was entered, and slot 1 holds the accelerometer driver exactly
when the ACCELERO branch was reached (the GYRO group's Init did not fail)
and entered — even when the ACCELERO group's own Init then fails, since
the slot is written before the call. Nothing is ever unwound. The last
three conjuncts exhibit the partway failures the claim names: the first
function group's Init failing, a later function group's Init failing after
the first succeeded, and the MAGNETO check failing after GYRO/ACCELERO
succeeded — each makes the probe return `BSP_ERROR_COMPONENT_FAILURE`
while the state equation above still applies. -/
theorem C8_partial_failure_no_rollback (env : DriverEnv) (s : BSPState)
    (Functions : Nat)
    (hreg : env.regBusRet = LSM6DSOX_OK) (hrid : env.readIDRet = LSM6DSOX_OK)
    (hid : env.readIDVal = LSM6DSOX_ID) :
    (LSM6DSOX_0_Probe env s Functions).2.1
      = { ctxFunctions := ctxMaskOf env.cap,
          funcDrv :=
            { slot0 :=
                if (Functions &&& MOTION_GYRO = MOTION_GYRO) ∧ env.cap.Gyro = 1
                then some FuncDrvId.gyroDrv else s.funcDrv.slot0,
              slot1 :=
                if ((Functions &&& MOTION_ACCELERO = MOTION_ACCELERO) ∧ env.cap.Acc = 1)
                    ∧ ¬((Functions &&& MOTION_GYRO = MOTION_GYRO) ∧ env.cap.Gyro = 1
                        ∧ env.commonInitRet 0 ≠ LSM6DSOX_OK)
                then some FuncDrvId.accDrv else s.funcDrv.slot1,
              slot2 := s.funcDrv.slot2 },
          drvBound := true, objBound := true } ∧
    ((Functions &&& MOTION_GYRO = MOTION_GYRO) ∧ env.cap.Gyro = 1
        ∧ env.commonInitRet 0 ≠ LSM6DSOX_OK →
      (LSM6DSOX_0_Probe env s Functions).1 = BSP_ERROR_COMPONENT_FAILURE) ∧
    ((Functions &&& MOTION_GYRO = MOTION_GYRO) ∧ env.cap.Gyro = 1
        ∧ env.commonInitRet 0 = LSM6DSOX_OK
        ∧ (Functions &&& MOTION_ACCELERO = MOTION_ACCELERO) ∧ env.cap.Acc = 1
        ∧ env.commonInitRet 1 ≠ LSM6DSOX_OK →
      (LSM6DSOX_0_Probe env s Functions).1 = BSP_ERROR_COMPONENT_FAILURE) ∧
    ((∀ n, env.commonInitRet n = LSM6DSOX_OK)
        ∧ Functions &&& MOTION_MAGNETO = MOTION_MAGNETO →
      (LSM6DSOX_0_Probe env s Functions).1 = BSP_ERROR_COMPONENT_FAILURE) := by
  refine ⟨?_, ?_, ?_, ?_⟩
  · by_cases hg : (Functions &&& MOTION_GYRO = MOTION_GYRO) ∧ env.cap.Gyro = 1 <;>
    by_cases hf0 : env.commonInitRet 0 = LSM6DSOX_OK <;>
    by_cases ha : (Functions &&& MOTION_ACCELERO = MOTION_ACCELERO) ∧ env.cap.Acc = 1 <;>
    by_cases hf1 : env.commonInitRet 1 = LSM6DSOX_OK <;>
    by_cases hmg : Functions &&& MOTION_MAGNETO = MOTION_MAGNETO <;>
      simp [LSM6DSOX_0_Probe, probeBind, probeBindAcc, probeBindMag,
        FuncTable.write, hreg, hrid, hid, hg, hf0, ha, hf1, hmg]
  · rintro ⟨hgr, hgc, hfail⟩
    simp [LSM6DSOX_0_Probe, probeBind, hreg, hrid, hid, hgr, hgc, hfail]
  · rintro ⟨hgr, hgc, hok0, har, hac, hfail1⟩
    simp [LSM6DSOX_0_Probe, probeBind, probeBindAcc, hreg, hrid, hid,
      hgr, hgc, hok0, har, hac, hfail1]
  · rintro ⟨hinit, hmg⟩
    simp only [LSM6DSOX_0_Probe, probeBind, probeBindAcc, probeBindMag,
      hreg, hrid, hid, hinit, hmg]
    split_ifs <;> simp_all

/-- Witness for `C8_partial_failure_no_rollback` at `c8Env` (whose second
common-driver Init call fails) with `Functions = MOTION_GYRO |
MOTION_ACCELERO`, from the zero-initialised state. -/
theorem C8_partial_failure_no_rollback_witness :
    (LSM6DSOX_0_Probe c8Env initialState 3).2.1
      = { ctxFunctions := ctxMaskOf c8Env.cap,
          funcDrv :=
            { slot0 :=
                if (3 &&& MOTION_GYRO = MOTION_GYRO) ∧ c8Env.cap.Gyro = 1
                then some FuncDrvId.gyroDrv else initialState.funcDrv.slot0,
              slot1 :=
                if ((3 &&& MOTION_ACCELERO = MOTION_ACCELERO) ∧ c8Env.cap.Acc = 1)
                    ∧ ¬((3 &&& MOTION_GYRO = MOTION_GYRO) ∧ c8Env.cap.Gyro = 1
                        ∧ c8Env.commonInitRet 0 ≠ LSM6DSOX_OK)
                then some FuncDrvId.accDrv else initialState.funcDrv.slot1,
              slot2 := initialState.funcDrv.slot2 },
          drvBound := true, objBound := true } ∧
    ((3 &&& MOTION_GYRO = MOTION_GYRO) ∧ c8Env.cap.Gyro = 1
        ∧ c8Env.commonInitRet 0 ≠ LSM6DSOX_OK →
      (LSM6DSOX_0_Probe c8Env initialState 3).1 = BSP_ERROR_COMPONENT_FAILURE) ∧
    ((3 &&& MOTION_GYRO = MOTION_GYRO) ∧ c8Env.cap.Gyro = 1
        ∧ c8Env.commonInitRet 0 = LSM6DSOX_OK
        ∧ (3 &&& MOTION_ACCELERO = MOTION_ACCELERO) ∧ c8Env.cap.Acc = 1
        ∧ c8Env.commonInitRet 1 ≠ LSM6DSOX_OK →
      (LSM6DSOX_0_Probe c8Env initialState 3).1 = BSP_ERROR_COMPONENT_FAILURE) ∧
    ((∀ n, c8Env.commonInitRet n = LSM6DSOX_OK)
        ∧ 3 &&& MOTION_MAGNETO = MOTION_MAGNETO →
      (LSM6DSOX_0_Probe c8Env initialState 3).1 = BSP_ERROR_COMPONENT_FAILURE) :=
  C8_partial_failure_no_rollback c8Env initialState 3 rfl rfl rfl

/-! ## C9 -/

/-- C9: the context mask stored at probe time records the hardware's
capability flags, not the functions actually bound. After
`CUSTOM_MOTION_SENSOR_Init` requesting only `MOTION_GYRO` on hardware that
also reports an accelerometer, the result state satisfies
`ctxFunctions &&& MOTION_ACCELERO = MOTION_ACCELERO` (the mask-subset
check passes for ACCELERO), yet the accelerometer dispatch slot still
holds its initial NULL (`slot1 = none`), so
`CUSTOM_MOTION_SENSOR_Enable` with `MOTION_ACCELERO` passes the check and
dereferences that NULL slot — undefined behaviour, `none` in this
embedding. -/
theorem C9_stale_capability_mask :
    (CUSTOM_MOTION_SENSOR_Init goodEnv initialState CUSTOM_LSM6DSOX_0
        MOTION_GYRO).map
        (fun r => (r.1, r.2.1.ctxFunctions &&& MOTION_ACCELERO,
          r.2.1.funcDrv.slot1,
          CUSTOM_MOTION_SENSOR_Enable goodEnv r.2.1 CUSTOM_LSM6DSOX_0
            MOTION_ACCELERO))
      = some (BSP_ERROR_NONE, MOTION_ACCELERO, none, none) := by
  rfl

/-! ## C10 -/

/-- C10: the function-scoped calls accept Function values outside
{GYRO, ACCELERO, MAGNETO}. `Function = 0` passes the mask-subset check
against every context mask and dispatches through `FunctionIndex[0]`,
which is slot index 0 — the gyroscope slot: with a driver bound there,
Enable/Disable at `Function = 0` invoke that driver. And any `Function ≥ 5`
that passes the subset check reads past the end of the 5-element
`FunctionIndex` table (`FunctionIndexRead` is `none`): undefined
behaviour, `none` results. -/
theorem C10_function_zero_and_out_of_bounds (env : DriverEnv) (s : BSPState)
    (f : Nat) (h5 : 5 ≤ f) (hsub : s.ctxFunctions &&& f = f) :
    (s.ctxFunctions &&& 0 = 0) ∧
    FunctionIndexRead 0 = some 0 ∧
    (∀ d, s.funcDrv.slot0 = some d →
      (∃ r, CUSTOM_MOTION_SENSOR_Enable env s CUSTOM_LSM6DSOX_0 0
          = some (r, [DrvCall.funcEnable d])) ∧
      (∃ r, CUSTOM_MOTION_SENSOR_Disable env s CUSTOM_LSM6DSOX_0 0
          = some (r, [DrvCall.funcDisable d]))) ∧
    FunctionIndexRead f = none ∧
    CUSTOM_MOTION_SENSOR_Enable env s CUSTOM_LSM6DSOX_0 f = none ∧
    CUSTOM_MOTION_SENSOR_Disable env s CUSTOM_LSM6DSOX_0 f = none := by
  have hnone : FunctionIndexRead f = none := by
    rw [FunctionIndexRead, FunctionIndex, List.get?_eq_none]
    simpa using h5
  refine ⟨by simp, rfl, ?_, hnone, ?_, ?_⟩
  · intro d hd
    constructor
    · by_cases hret : env.funcEnableRet d = BSP_ERROR_NONE
      · exact ⟨BSP_ERROR_NONE, by simp [CUSTOM_MOTION_SENSOR_Enable,
          CUSTOM_LSM6DSOX_0, CUSTOM_MOTION_INSTANCES_NBR, FunctionIndexRead,
          FunctionIndex, FuncTable.read, hd, hret]⟩
      · exact ⟨BSP_ERROR_COMPONENT_FAILURE, by simp [CUSTOM_MOTION_SENSOR_Enable,
          CUSTOM_LSM6DSOX_0, CUSTOM_MOTION_INSTANCES_NBR, FunctionIndexRead,
          FunctionIndex, FuncTable.read, hd, hret]⟩
    · by_cases hret : env.funcDisableRet d = BSP_ERROR_NONE
      · exact ⟨BSP_ERROR_NONE, by simp [CUSTOM_MOTION_SENSOR_Disable,
          CUSTOM_LSM6DSOX_0, CUSTOM_MOTION_INSTANCES_NBR, FunctionIndexRead,
          FunctionIndex, FuncTable.read, hd, hret]⟩
      · exact ⟨BSP_ERROR_COMPONENT_FAILURE, by simp [CUSTOM_MOTION_SENSOR_Disable,
          CUSTOM_LSM6DSOX_0, CUSTOM_MOTION_INSTANCES_NBR, FunctionIndexRead,
          FunctionIndex, FuncTable.read, hd, hret]⟩
  · simp [CUSTOM_MOTION_SENSOR_Enable, CUSTOM_LSM6DSOX_0,
      CUSTOM_MOTION_INSTANCES_NBR, hsub, hnone]
  · simp [CUSTOM_MOTION_SENSOR_Disable, CUSTOM_LSM6DSOX_0,
      CUSTOM_MOTION_INSTANCES_NBR, hsub, hnone]

/-- Witness for `C10_function_zero_and_out_of_bounds`: a state with context
mask 7 (all three capability bits) and the gyro driver bound in slot 0;
`Function = 7` is ≥ 5 yet `7 &&& 7 = 7` passes the subset check. -/
theorem C10_function_zero_and_out_of_bounds_witness :
    ({ ctxFunctions := 7,
       funcDrv := { slot0 := some FuncDrvId.gyroDrv, slot1 := none, slot2 := none },
       drvBound := true, objBound := true } : BSPState).ctxFunctions &&& 0 = 0 ∧
    FunctionIndexRead 0 = some 0 ∧
    (∀ d, ({ ctxFunctions := 7,
             funcDrv := { slot0 := some FuncDrvId.gyroDrv, slot1 := none, slot2 := none },
             drvBound := true, objBound := true } : BSPState).funcDrv.slot0 = some d →
      (∃ r, CUSTOM_MOTION_SENSOR_Enable goodEnv
          { ctxFunctions := 7,
            funcDrv := { slot0 := some FuncDrvId.gyroDrv, slot1 := none, slot2 := none },
            drvBound := true, objBound := true } CUSTOM_LSM6DSOX_0 0
          = some (r, [DrvCall.funcEnable d])) ∧
      (∃ r, CUSTOM_MOTION_SENSOR_Disable goodEnv
          { ctxFunctions := 7,
            funcDrv := { slot0 := some FuncDrvId.gyroDrv, slot1 := none, slot2 := none },
            drvBound := true, objBound := true } CUSTOM_LSM6DSOX_0 0
          = some (r, [DrvCall.funcDisable d]))) ∧
    FunctionIndexRead 7 = none ∧
    CUSTOM_MOTION_SENSOR_Enable goodEnv
        { ctxFunctions := 7,
          funcDrv := { slot0 := some FuncDrvId.gyroDrv, slot1 := none, slot2 := none },
          drvBound := true, objBound := true } CUSTOM_LSM6DSOX_0 7 = none ∧
    CUSTOM_MOTION_SENSOR_Disable goodEnv
        { ctxFunctions := 7,
          funcDrv := { slot0 := some FuncDrvId.gyroDrv, slot1 := none, slot2 := none },
          drvBound := true, objBound := true } CUSTOM_LSM6DSOX_0 7 = none :=
  C10_function_zero_and_out_of_bounds goodEnv
    { ctxFunctions := 7,
      funcDrv := { slot0 := some FuncDrvId.gyroDrv, slot1 := none, slot2 := none },
      drvBound := true, objBound := true } 7 (by decide) (by decide)

end CustomMotion
